import Mathlib

set_option linter.unusedVariables false

/-!
Verification of the `ethbinding` shim (`typeutils.go`).

The repository exposes `EthAPI`, an interface of 31 operations, and a single
implementation `ethAPIShim` (an empty struct) whose methods forward to
functions of the wrapped go-ethereum library (packages `hexutil`, `common`,
`abi`, `compiler`, `rpc`, `types`, `math`, `crypto`, `rlp`) and to the Go
standard library `encoding/json`.

The wrapped library is external to the repository, so it is modelled as a
record of functions (`GethLib`): every library function the shim calls is a
field, and the shim's methods are transcribed from the Go source as Lean
functions parameterised by that record.  Go's `error` is modelled as
`Option GoError` (with `none` for Go's `nil` error), Go's nil-able pointers
as `Option`, and `[]byte` as `List Nat`.
-/

namespace Ethbinding

/-- Go `error` values; `Option GoError` models a Go error result,
`none` standing for Go's `nil`. -/
abbrev GoError := String

/-- Go `[]byte`. -/
abbrev Bytes := List Nat

/-- Modelled from the spec: the repository's `Address` is a type alias over
the wrapped library's address type (`common.Address`, a 20-byte value). -/
structure Address where
  data : Bytes
deriving DecidableEq, Repr, Inhabited

/-- Modelled from the spec: the repository's `Hash` is a type alias over the
wrapped library's hash type (`common.Hash`, a 32-byte value). -/
structure Hash where
  data : Bytes
deriving DecidableEq, Repr, Inhabited

/-- A Go `*big.Int`: the pointer may be nil, the pointee is an integer. -/
abbrev BigIntP := Option Int

/-- The wrapped library's `abi.Type` (aliased `ABIType` in the repository).
Of its fields the shim only ever observes the `stringKind` rendering (via the
`String()` method) and the zero value, so the model keeps the type/size tags
and the rendering.  The Go zero value `abi.Type\x7b\x7d` is `default`. -/
structure ABIType where
  T : Nat
  Size : Nat
  stringKind : String
deriving DecidableEq, Repr, Inhabited

/-- go-ethereum `Type.String()` returns the `stringKind` field. -/
def ABIType.String (t : ABIType) : String :=
  t.stringKind

/-- The wrapped library's `abi.Argument`: a name, a processed type, and an
indexed flag.  `Ty` models the Go field `Type` (a Lean keyword). -/
structure ABIArgument where
  Name : String
  Ty : ABIType
  Indexed : Bool
deriving DecidableEq, Repr, Inhabited

/-- The repository's `ABIArguments` alias (`abi.Arguments`, a slice). -/
abbrev ABIArguments := List ABIArgument

/-- The wrapped library's `abi.Event`, restricted to the fields the shim
reads (`RawName`, `Inputs`) or passes to `abi.NewEvent` (`Name`,
`Anonymous`); the derived fields (`Sig`, `ID`, cached string) are omitted
because no code under verification ever observes them. -/
structure ABIEvent where
  Name : String
  RawName : String
  Anonymous : Bool
  Inputs : ABIArguments
deriving DecidableEq, Repr, Inhabited

/-- The wrapped library's `abi.Method`.  The shim never inspects a method, it
only obtains one from `abi.NewMethod` and returns it, so the model is an
opaque token. -/
structure ABIMethod where
  id : Nat
deriving DecidableEq, Repr, Inhabited

/-- The wrapped library's `abi.FunctionType` enumeration
(`Constructor | Fallback | Receive | Function`). -/
inductive ABIFunctionType where
  | constructor
  | fallback
  | receive
  | function
deriving DecidableEq, Repr, Inhabited

/-- The wrapped library's `abi.ArgumentMarshaling` (aliased
`ABIArgumentMarshaling`): name, type, internal type, optional recursive
component list (Go nil slice is `none`), indexed flag. -/
inductive ABIArgumentMarshaling where
  | mk : String → String → String → Option (List ABIArgumentMarshaling) →
      Bool → ABIArgumentMarshaling

/-- Field `Name` of `ABIArgumentMarshaling`. -/
def ABIArgumentMarshaling.Name : ABIArgumentMarshaling → String
  | .mk n _ _ _ _ => n

/-- Field `Type` of `ABIArgumentMarshaling` (`Ty`, since `Type` is a Lean
keyword). -/
def ABIArgumentMarshaling.Ty : ABIArgumentMarshaling → String
  | .mk _ t _ _ _ => t

/-- Field `InternalType` of `ABIArgumentMarshaling`. -/
def ABIArgumentMarshaling.InternalType : ABIArgumentMarshaling → String
  | .mk _ _ it _ _ => it

/-- Field `Components` of `ABIArgumentMarshaling`. -/
def ABIArgumentMarshaling.Components :
    ABIArgumentMarshaling → Option (List ABIArgumentMarshaling)
  | .mk _ _ _ c _ => c

/-- Field `Indexed` of `ABIArgumentMarshaling`. -/
def ABIArgumentMarshaling.Indexed : ABIArgumentMarshaling → Bool
  | .mk _ _ _ _ i => i

/-- Modelled from the spec: the repository's `ABIElementMarshaling` struct is
defined in the type-alias file that is not under `src/`; its fields are
reconstructed from their uses in `typeutils.go`
(`Name`, `Anonymous`, `StateMutability`, `Constant`, `Payable`, `Inputs`,
`Outputs`). -/
structure ABIElementMarshaling where
  Name : String
  Anonymous : Bool
  StateMutability : String
  Constant : Bool
  Payable : Bool
  Inputs : List ABIArgumentMarshaling
  Outputs : List ABIArgumentMarshaling

/-- Modelled from the spec: the repository's `ABIMarshaling` is the
serialized form of a whole ABI, a slice of elements. -/
abbrev ABIMarshaling := List ABIElementMarshaling

/-- The wrapped library's `abi.ABI` (aliased `RuntimeABI`).  The shim never
inspects one: it only receives it from `json.Unmarshal` or `abi.JSON`, so the
model is an opaque token whose `default` stands for the Go zero value. -/
structure RuntimeABI where
  id : Nat
deriving DecidableEq, Repr, Inhabited

/-- An `io.Reader`: opaque, only forwarded. -/
structure Reader where
  id : Nat
deriving DecidableEq, Repr, Inhabited

/-- The wrapped library's `compiler.Solidity`: opaque, only forwarded. -/
structure Solidity where
  id : Nat
deriving DecidableEq, Repr, Inhabited

/-- The wrapped library's `compiler.Contract`: opaque, only forwarded. -/
structure Contract where
  id : Nat
deriving DecidableEq, Repr, Inhabited

/-- The wrapped library's `rpc.Client` (aliased `RPCClient`): opaque. -/
structure RPCClient where
  id : Nat
deriving DecidableEq, Repr, Inhabited

/-- The wrapped library's `types.Transaction`: opaque, only forwarded. -/
structure Transaction where
  id : Nat
deriving DecidableEq, Repr, Inhabited

/-- The wrapped library's `types.EIP155Signer`: opaque, only forwarded. -/
structure EIP155Signer where
  id : Nat
deriving DecidableEq, Repr, Inhabited

/-- The wrapped library's `types.Signer` interface value: opaque. -/
structure Signer where
  id : Nat
deriving DecidableEq, Repr, Inhabited

/-- The wrapped library's `rlp.Stream`: opaque, only forwarded. -/
structure RLPStream where
  id : Nat
deriving DecidableEq, Repr, Inhabited

/-- A Go `ecdsa.PrivateKey`: opaque, only forwarded. -/
structure PrivateKey where
  id : Nat
deriving DecidableEq, Repr, Inhabited

/-- A Go `ecdsa.PublicKey`: opaque, only forwarded. -/
structure PublicKey where
  id : Nat
deriving DecidableEq, Repr, Inhabited

/-- A Go `map[string]*Contract` result, as an association list. -/
abbrev ContractMap := List (String × Option Contract)

/-- The wrapped go-ethereum library (and the two `encoding/json` standard
library entry points the shim uses), modelled as a record of functions.
Each field is the function of the named external package that the shim
calls; multi-result Go functions return tuples, Go `error` results are
`Option GoError`, nil-able pointers are `Option`.  `json.Marshal` /
`json.Unmarshal` appear once per Go target type, since the shim applies
them at two different types; an `Unmarshal` field takes the target's value
before the call and returns its value after the call together with the
error. -/
structure GethLib where
  hexutil_Decode : String → Bytes × Option GoError
  common_HexToAddress : String → Address
  common_BytesToAddress : Bytes → Address
  common_IsHexAddress : String → Bool
  common_HexToHash : String → Hash
  hexutil_EncodeBig : BigIntP → String
  common_FromHex : String → Bytes
  abi_NewType : String → String → List ABIArgumentMarshaling →
      ABIType × Option GoError
  abi_NewEvent : String → String → Bool → ABIArguments → ABIEvent
  abi_NewMethod : String → String → ABIFunctionType → String → Bool → Bool →
      ABIArguments → ABIArguments → ABIMethod
  abi_JSON : Reader → RuntimeABI × Option GoError
  compiler_SolidityVersion : String → Option Solidity × Option GoError
  compiler_ParseCombinedJSON : Bytes → String → String → String → String →
      ContractMap × Option GoError
  rpc_Dial : String → Option RPCClient × Option GoError
  types_NewTransaction : Nat → Address → BigIntP → Nat → BigIntP → Bytes →
      Option Transaction
  types_NewContractCreation : Nat → BigIntP → Nat → BigIntP → Bytes →
      Option Transaction
  types_NewEIP155Signer : BigIntP → EIP155Signer
  math_ParseBig256 : String → BigIntP × Bool
  math_S256 : BigIntP → BigIntP
  crypto_GenerateKey : Unit → Option PrivateKey × Option GoError
  crypto_PubkeyToAddress : PublicKey → Address
  crypto_FromECDSA : Option PrivateKey → Bytes
  crypto_HexToECDSA : String → Option PrivateKey × Option GoError
  rlp_NewStream : Reader → Nat → Option RLPStream
  types_SignTx : Option Transaction → Signer → Option PrivateKey →
      Option Transaction × Option GoError
  json_Marshal_ABIMarshaling : ABIMarshaling → Bytes × Option GoError
  json_Unmarshal_RuntimeABI : Bytes → RuntimeABI → RuntimeABI × Option GoError
  json_Marshal_Components : List ABIArgumentMarshaling →
      Bytes × Option GoError
  json_Unmarshal_Components : Bytes → List ABIArgumentMarshaling →
      List ABIArgumentMarshaling × Option GoError

/-- `type ethAPIShim struct\x7b\x7d` — the implementation type of the shim:
an empty struct. -/
structure ethAPIShim

/-- Go `strings.Join(elems, sep)`: the elements joined by the separator. -/
def stringsJoin : List String → String → String
  | [], _ => ""
  | [s], _ => s
  | s :: rest, sep => s ++ sep ++ stringsJoin rest sep

end Ethbinding

namespace Ethbinding

/-! ### The shim's methods, transcribed from `typeutils.go`.

Each Go method `func (e *ethAPIShim) F(args...)` becomes a Lean function
taking the receiver `e : ethAPIShim`, the wrapped library `lib : GethLib`
(the statically linked go-ethereum packages), and the method's arguments. -/

/-- `HexDecode` decodes an 0x prefixed hex string:
`return hexutil.Decode(hex)`. -/
def ethAPIShim.HexDecode (e : ethAPIShim) (lib : GethLib) (hex : String) :
    Bytes × Option GoError :=
  lib.hexutil_Decode hex

/-- `HexToAddress` converts hex to an address:
`var addr Address = common.HexToAddress(hex); return addr`. -/
def ethAPIShim.HexToAddress (e : ethAPIShim) (lib : GethLib) (hex : String) :
    Address :=
  let addr : Address := lib.common_HexToAddress hex
  addr

/-- `BytesToAddress` converts bytes to an address:
`return common.BytesToAddress(b)`. -/
def ethAPIShim.BytesToAddress (e : ethAPIShim) (lib : GethLib) (b : Bytes) :
    Address :=
  lib.common_BytesToAddress b

/-- `IsHexAddress`: `return common.IsHexAddress(s)`. -/
def ethAPIShim.IsHexAddress (e : ethAPIShim) (lib : GethLib) (s : String) :
    Bool :=
  lib.common_IsHexAddress s

/-- `HexToHash` converts hex to a hash:
`var hash Hash = common.HexToHash(hex); return hash`. -/
def ethAPIShim.HexToHash (e : ethAPIShim) (lib : GethLib) (hex : String) :
    Hash :=
  let hash : Hash := lib.common_HexToHash hex
  hash

/-- `EncodeBig`: `return hexutil.EncodeBig(bigint)`. -/
def ethAPIShim.EncodeBig (e : ethAPIShim) (lib : GethLib) (bigint : BigIntP) :
    String :=
  lib.hexutil_EncodeBig bigint

/-- `FromHex` returns the bytes represented by the hexadecimal string:
`return common.FromHex(hex)`. -/
def ethAPIShim.FromHex (e : ethAPIShim) (lib : GethLib) (hex : String) :
    Bytes :=
  lib.common_FromHex hex

/-- `ABITypeFor` gives you a type for a string:
`t, err := abi.NewType(typeName, "", []abi.ArgumentMarshaling\x7b\x7d);`
`return t, err`. -/
def ethAPIShim.ABITypeFor (e : ethAPIShim) (lib : GethLib)
    (typeName : String) : ABIType × Option GoError :=
  let (t, err) := lib.abi_NewType typeName "" []
  (t, err)

/-- `ABITypeKnown` gives you a type for a string you are sure is known:
`t, _ = abi.NewType(typeName, "", []abi.ArgumentMarshaling\x7b\x7d);`
`return t` — the error is discarded. -/
def ethAPIShim.ABITypeKnown (e : ethAPIShim) (lib : GethLib)
    (typeName : String) : ABIType :=
  let (t, _) := lib.abi_NewType typeName "" []
  t

/-- `NewType` creates a new reflection type of abi type:
`return abi.NewType(typeName, internalType, []abi.ArgumentMarshaling\x7b\x7d)`. -/
def ethAPIShim.NewType (e : ethAPIShim) (lib : GethLib)
    (typeName internalType : String) : ABIType × Option GoError :=
  lib.abi_NewType typeName internalType []

/-- `ABIEventSignature` returns a signature for an ABI event:
builds `typeStrings[i] = input.Type.String()` for every input, then
`fmt.Sprintf("%v(%v)", event.RawName, strings.Join(typeStrings, ","))`. -/
def ethAPIShim.ABIEventSignature (e : ethAPIShim) (lib : GethLib)
    (event : ABIEvent) : String :=
  let typeStrings := event.Inputs.map fun input => input.Ty.String
  event.RawName ++ "(" ++ stringsJoin typeStrings "," ++ ")"

/-- `ABIMarshalingToABIRuntime` converts a serialized ABI into a
`RuntimeABI`:
`var runtime RuntimeABI; b, _ := json.Marshal(&marshalable);`
`err := json.Unmarshal(b, &runtime); return &runtime, err` —
the marshal error is discarded, and the address of the local `runtime`
(never nil) is returned together with the unmarshal error. -/
def ethAPIShim.ABIMarshalingToABIRuntime (e : ethAPIShim) (lib : GethLib)
    (marshalable : ABIMarshaling) : Option RuntimeABI × Option GoError :=
  let runtime0 : RuntimeABI := default
  let (b, _) := lib.json_Marshal_ABIMarshaling marshalable
  let (runtime, err) := lib.json_Unmarshal_RuntimeABI b runtime0
  (some runtime, err)

/-- The components block of the `ABIArgumentsMarshalingToABIArguments` loop
body: `var components []abi.ArgumentMarshaling` stays nil (here `[]`) when
`mArg.Components` is nil, otherwise the components are round-tripped through
`json.Marshal` / `json.Unmarshal` with both errors discarded. -/
def goComponents (lib : GethLib) (mArg : ABIArgumentMarshaling) :
    List ABIArgumentMarshaling :=
  match mArg.Components with
  | none => []
  | some cs =>
    let (b, _) := lib.json_Marshal_Components cs
    let (comps, _) := lib.json_Unmarshal_Components b []
    comps

/-- The loop of `ABIArgumentsMarshalingToABIArguments`: for each serialized
argument, compute its components (`goComponents`), call `abi.NewType` and
stop with `(nil, err)` at the first error, otherwise build the processed
argument. -/
def abiArgumentsLoop (lib : GethLib) :
    List ABIArgumentMarshaling → Option ABIArguments × Option GoError
  | [] => (some [], none)
  | mArg :: rest =>
    let components := goComponents lib mArg
    match lib.abi_NewType mArg.Ty mArg.InternalType components with
    | (_, some er) => (none, some er)
    | (ty, none) =>
      match abiArgumentsLoop lib rest with
      | (none, er) => (none, er)
      | (some args, _) =>
        (some ({ Name := mArg.Name, Ty := ty, Indexed := mArg.Indexed }
          :: args), none)

/-- `ABIArgumentsMarshalingToABIArguments` converts serialized argument
representations to processed type information; returns `(nil, err)` as soon
as one `abi.NewType` call fails. -/
def ethAPIShim.ABIArgumentsMarshalingToABIArguments (e : ethAPIShim)
    (lib : GethLib) (marshalable : List ABIArgumentMarshaling) :
    Option ABIArguments × Option GoError :=
  abiArgumentsLoop lib marshalable

/-- `ABIElementMarshalingToABIEvent`: convert the inputs, and when that
succeeds build the event with `abi.NewEvent(Name, Name, Anonymous, inputs)`;
the named return `event` stays nil on error. -/
def ethAPIShim.ABIElementMarshalingToABIEvent (e : ethAPIShim)
    (lib : GethLib) (marshalable : ABIElementMarshaling) :
    Option ABIEvent × Option GoError :=
  let (inputs, err) :=
    e.ABIArgumentsMarshalingToABIArguments lib marshalable.Inputs
  match err with
  | none =>
    (some (lib.abi_NewEvent marshalable.Name marshalable.Name
      marshalable.Anonymous (inputs.getD [])), none)
  | some er => (none, some er)

/-- `ABIElementMarshalingToABIMethod`: convert inputs then outputs, and when
both succeed build the method with
`abi.NewMethod(Name, Name, abi.Function, StateMutability, Constant, Payable,
inputs, outputs)`; the named return `method` stays nil on error. -/
def ethAPIShim.ABIElementMarshalingToABIMethod (e : ethAPIShim)
    (lib : GethLib) (m : ABIElementMarshaling) :
    Option ABIMethod × Option GoError :=
  let (inputs, err) := e.ABIArgumentsMarshalingToABIArguments lib m.Inputs
  match err with
  | none =>
    let (outputs, err2) := e.ABIArgumentsMarshalingToABIArguments lib m.Outputs
    match err2 with
    | none =>
      (some (lib.abi_NewMethod m.Name m.Name .function m.StateMutability
        m.Constant m.Payable (inputs.getD []) (outputs.getD [])), none)
    | some er => (none, some er)
  | some er => (none, some er)

/-- `JSON` returns a parsed ABI interface and error:
`return abi.JSON(reader)`. -/
def ethAPIShim.JSON (e : ethAPIShim) (lib : GethLib) (reader : Reader) :
    RuntimeABI × Option GoError :=
  lib.abi_JSON reader

/-- `SolidityVersion`: `return compiler.SolidityVersion(solc)`. -/
def ethAPIShim.SolidityVersion (e : ethAPIShim) (lib : GethLib)
    (solc : String) : Option Solidity × Option GoError :=
  lib.compiler_SolidityVersion solc

/-- `ParseCombinedJSON`: `return compiler.ParseCombinedJSON(...)`. -/
def ethAPIShim.ParseCombinedJSON (e : ethAPIShim) (lib : GethLib)
    (combinedJSON : Bytes) (source languageVersion compilerVersion
    compilerOptions : String) : ContractMap × Option GoError :=
  lib.compiler_ParseCombinedJSON combinedJSON source languageVersion
    compilerVersion compilerOptions

/-- `Dial`: `return rpc.Dial(rawurl)`. -/
def ethAPIShim.Dial (e : ethAPIShim) (lib : GethLib) (rawurl : String) :
    Option RPCClient × Option GoError :=
  lib.rpc_Dial rawurl

/-- `NewMethod`: `return abi.NewMethod(name, rawName, funType, mutability,
isConst, isPayable, inputs, outputs)`. -/
def ethAPIShim.NewMethod (e : ethAPIShim) (lib : GethLib)
    (name rawName : String) (funType : ABIFunctionType) (mutability : String)
    (isConst isPayable : Bool) (inputs outputs : ABIArguments) : ABIMethod :=
  lib.abi_NewMethod name rawName funType mutability isConst isPayable
    inputs outputs

/-- `NewTransaction`: `return types.NewTransaction(nonce, to, amount,
gasLimit, gasPrice, data)` — `toA` is the Go parameter `to`, a Lean
keyword. -/
def ethAPIShim.NewTransaction (e : ethAPIShim) (lib : GethLib)
    (nonce : Nat) (toA : Address) (amount : BigIntP) (gasLimit : Nat)
    (gasPrice : BigIntP) (data : Bytes) : Option Transaction :=
  lib.types_NewTransaction nonce toA amount gasLimit gasPrice data

/-- `NewContractCreation`: `return types.NewContractCreation(nonce, amount,
gasLimit, gasPrice, data)`. -/
def ethAPIShim.NewContractCreation (e : ethAPIShim) (lib : GethLib)
    (nonce : Nat) (amount : BigIntP) (gasLimit : Nat) (gasPrice : BigIntP)
    (data : Bytes) : Option Transaction :=
  lib.types_NewContractCreation nonce amount gasLimit gasPrice data

/-- `NewEIP155Signer`: `return types.NewEIP155Signer(chainID)`. -/
def ethAPIShim.NewEIP155Signer (e : ethAPIShim) (lib : GethLib)
    (chainID : BigIntP) : EIP155Signer :=
  lib.types_NewEIP155Signer chainID

/-- `ParseBig256`: `return math.ParseBig256(s)`. -/
def ethAPIShim.ParseBig256 (e : ethAPIShim) (lib : GethLib) (s : String) :
    BigIntP × Bool :=
  lib.math_ParseBig256 s

/-- `S256`: `return math.S256(x)`. -/
def ethAPIShim.S256 (e : ethAPIShim) (lib : GethLib) (x : BigIntP) :
    BigIntP :=
  lib.math_S256 x

/-- `GenerateKey`: `return crypto.GenerateKey()`. -/
def ethAPIShim.GenerateKey (e : ethAPIShim) (lib : GethLib) (u : Unit) :
    Option PrivateKey × Option GoError :=
  lib.crypto_GenerateKey u

/-- `PubkeyToAddress`: `return crypto.PubkeyToAddress(p)`. -/
def ethAPIShim.PubkeyToAddress (e : ethAPIShim) (lib : GethLib)
    (p : PublicKey) : Address :=
  lib.crypto_PubkeyToAddress p

/-- `FromECDSA` exports a private key into a binary dump:
`return crypto.FromECDSA(priv)`. -/
def ethAPIShim.FromECDSA (e : ethAPIShim) (lib : GethLib)
    (priv : Option PrivateKey) : Bytes :=
  lib.crypto_FromECDSA priv

/-- `HexToECDSA` parses a secp256k1 private key:
`return crypto.HexToECDSA(hexkey)`. -/
def ethAPIShim.HexToECDSA (e : ethAPIShim) (lib : GethLib)
    (hexkey : String) : Option PrivateKey × Option GoError :=
  lib.crypto_HexToECDSA hexkey

/-- `NewStream` creates a new decoding stream:
`return rlp.NewStream(r, inputLimit)`. -/
def ethAPIShim.NewStream (e : ethAPIShim) (lib : GethLib) (r : Reader)
    (inputLimit : Nat) : Option RLPStream :=
  lib.rlp_NewStream r inputLimit

/-- `SignTx` signs the transaction using the given signer and private key:
`return types.SignTx(tx, s, prv)`. -/
def ethAPIShim.SignTx (e : ethAPIShim) (lib : GethLib)
    (tx : Option Transaction) (s : Signer) (prv : Option PrivateKey) :
    Option Transaction × Option GoError :=
  lib.types_SignTx tx s prv

/-- The method set of the `EthAPI` interface, in declaration order
(`typeutils.go` lines 40-70). -/
def EthAPIOps : List String :=
  ["HexDecode", "HexToAddress", "BytesToAddress", "IsHexAddress",
   "HexToHash", "EncodeBig", "FromHex", "ABITypeFor", "ABITypeKnown",
   "NewType", "ABIEventSignature", "ABIMarshalingToABIRuntime",
   "ABIArgumentsMarshalingToABIArguments", "ABIElementMarshalingToABIEvent",
   "ABIElementMarshalingToABIMethod", "JSON", "SolidityVersion",
   "ParseCombinedJSON", "Dial", "NewMethod", "NewTransaction",
   "NewContractCreation", "NewEIP155Signer", "ParseBig256", "S256",
   "GenerateKey", "PubkeyToAddress", "FromECDSA", "HexToECDSA",
   "NewStream", "SignTx"]

end Ethbinding

namespace Ethbinding

/-! ### Concrete library instances, used to evaluate the shim on
concrete inputs. -/

/-- A concrete wrapped-library instance whose functions all return default
values and `nil` errors. -/
def constLib : GethLib where
  hexutil_Decode := fun _ => ([], none)
  common_HexToAddress := fun _ => default
  common_BytesToAddress := fun _ => default
  common_IsHexAddress := fun _ => false
  common_HexToHash := fun _ => default
  hexutil_EncodeBig := fun _ => ""
  common_FromHex := fun _ => []
  abi_NewType := fun _ _ _ => (default, none)
  abi_NewEvent := fun name rawName anon inputs => ⟨name, rawName, anon, inputs⟩
  abi_NewMethod := fun _ _ _ _ _ _ _ _ => default
  abi_JSON := fun _ => (default, none)
  compiler_SolidityVersion := fun _ => (none, none)
  compiler_ParseCombinedJSON := fun _ _ _ _ _ => ([], none)
  rpc_Dial := fun _ => (none, none)
  types_NewTransaction := fun _ _ _ _ _ _ => none
  types_NewContractCreation := fun _ _ _ _ _ => none
  types_NewEIP155Signer := fun _ => default
  math_ParseBig256 := fun _ => (none, false)
  math_S256 := fun x => x
  crypto_GenerateKey := fun _ => (none, none)
  crypto_PubkeyToAddress := fun _ => default
  crypto_FromECDSA := fun _ => []
  crypto_HexToECDSA := fun _ => (none, none)
  rlp_NewStream := fun _ _ => none
  types_SignTx := fun tx _ _ => (tx, none)
  json_Marshal_ABIMarshaling := fun _ => ([], none)
  json_Unmarshal_RuntimeABI := fun _ r => (r, none)
  json_Marshal_Components := fun _ => ([], none)
  json_Unmarshal_Components := fun _ c => (c, none)

/-- A second concrete wrapped-library instance, differing from `constLib`
in every observable result. -/
def altLib : GethLib where
  hexutil_Decode := fun _ => ([7], some "alt")
  common_HexToAddress := fun _ => ⟨[7]⟩
  common_BytesToAddress := fun _ => ⟨[7]⟩
  common_IsHexAddress := fun _ => true
  common_HexToHash := fun _ => ⟨[7]⟩
  hexutil_EncodeBig := fun _ => "alt"
  common_FromHex := fun _ => [7]
  abi_NewType := fun _ _ _ => (⟨7, 7, "alt"⟩, some "alt")
  abi_NewEvent := fun _ _ _ _ => ⟨"alt", "alt", true, []⟩
  abi_NewMethod := fun _ _ _ _ _ _ _ _ => ⟨7⟩
  abi_JSON := fun _ => (⟨7⟩, some "alt")
  compiler_SolidityVersion := fun _ => (some ⟨7⟩, some "alt")
  compiler_ParseCombinedJSON := fun _ _ _ _ _ => ([("alt", some ⟨7⟩)], some "alt")
  rpc_Dial := fun _ => (some ⟨7⟩, some "alt")
  types_NewTransaction := fun _ _ _ _ _ _ => some ⟨7⟩
  types_NewContractCreation := fun _ _ _ _ _ => some ⟨7⟩
  types_NewEIP155Signer := fun _ => ⟨7⟩
  math_ParseBig256 := fun _ => (some 7, true)
  math_S256 := fun _ => some 7
  crypto_GenerateKey := fun _ => (some ⟨7⟩, some "alt")
  crypto_PubkeyToAddress := fun _ => ⟨[7]⟩
  crypto_FromECDSA := fun _ => [7]
  crypto_HexToECDSA := fun _ => (some ⟨7⟩, some "alt")
  rlp_NewStream := fun _ _ => some ⟨7⟩
  types_SignTx := fun _ _ _ => (some ⟨7⟩, some "alt")
  json_Marshal_ABIMarshaling := fun _ => ([7], some "alt")
  json_Unmarshal_RuntimeABI := fun _ _ => (⟨7⟩, some "alt")
  json_Marshal_Components := fun _ => ([7], some "alt")
  json_Unmarshal_Components := fun _ _ => ([], some "alt")

/-- A processed `uint256` ABI type value. -/
def uint256Ty : ABIType := ⟨1, 32, "uint256"⟩

/-- An ABI event with no inputs. -/
def approvalEvent : ABIEvent := ⟨"Approval", "Approval", false, []⟩

/-- An ABI event with two `uint256` inputs. -/
def transferEvent : ABIEvent :=
  ⟨"Transfer", "Transfer", false,
   [⟨"from", uint256Ty, true⟩, ⟨"value", uint256Ty, false⟩]⟩

/-! ### `strings.Join` agrees with `String.intercalate`. -/

/-- Prepending a joined head distributes over `stringsJoin`. -/
theorem stringsJoin_cons_append (a sep b : String) (bs : List String) :
    stringsJoin ((a ++ sep ++ b) :: bs) sep =
      a ++ sep ++ stringsJoin (b :: bs) sep := by
  cases bs with
  | nil => rfl
  | cons c cs => simp [stringsJoin, String.append_assoc]

/-- The accumulator recursion of `String.intercalate` computes
`stringsJoin`. -/
theorem intercalate_go_eq (sep : String) :
    ∀ (as : List String) (a : String),
      String.intercalate.go a sep as = stringsJoin (a :: as) sep := by
  intro as
  induction as with
  | nil => intro a; rfl
  | cons b bs ih =>
    intro a
    have h1 : String.intercalate.go a sep (b :: bs) =
        String.intercalate.go (a ++ sep ++ b) sep bs := rfl
    rw [h1, ih (a ++ sep ++ b), stringsJoin_cons_append]
    rfl

/-- Go's `strings.Join` is `String.intercalate`. -/
theorem stringsJoin_eq_intercalate (sep : String) (l : List String) :
    stringsJoin l sep = String.intercalate sep l := by
  cases l with
  | nil => rfl
  | cons a as =>
    have h : String.intercalate sep (a :: as) =
        String.intercalate.go a sep as := rfl
    rw [h, intercalate_go_eq]

end Ethbinding

namespace Ethbinding

/-- C7: for every ABI event, `ABIEventSignature` returns the event's
`RawName`, then `(`, then the `String` renderings of the input types joined
by `,`, then `)`; for an event with no inputs it returns `RawName`
followed by `()`. -/
theorem abiEventSignature_spec (e : ethAPIShim) (lib : GethLib)
    (event : ABIEvent) :
    ethAPIShim.ABIEventSignature e lib event =
      event.RawName ++ "(" ++
        String.intercalate "," (event.Inputs.map fun i => i.Ty.String) ++ ")"
    ∧ (event.Inputs = [] →
        ethAPIShim.ABIEventSignature e lib event = event.RawName ++ "()") := by
  constructor
  · simp [ethAPIShim.ABIEventSignature, stringsJoin_eq_intercalate]
  · intro h
    simp [ethAPIShim.ABIEventSignature, h, stringsJoin]
    rw [String.append_assoc]
    rfl

/-- C7 witness: the `Approval` event has no inputs, and its signature is its
raw name followed by `()`. -/
theorem abiEventSignature_spec_witness :
    approvalEvent.Inputs = [] ∧
    ethAPIShim.ABIEventSignature ⟨⟩ constLib approvalEvent =
      approvalEvent.RawName ++ "()" :=
  ⟨rfl, (abiEventSignature_spec ⟨⟩ constLib approvalEvent).2 rfl⟩

/-- C8: `ABIMarshalingToABIRuntime` always returns a non-nil `*RuntimeABI`,
even when the error is non-nil: the Go code returns the address of a local
variable. -/
theorem abiMarshalingToABIRuntime_notNil (e : ethAPIShim) (lib : GethLib)
    (marshalable : ABIMarshaling) :
    (ethAPIShim.ABIMarshalingToABIRuntime e lib marshalable).fst.isSome := by
  rfl

/-- C9: `ABITypeFor` and `ABITypeKnown` invoke the same underlying
construction `abi.NewType(typeName, "", [])`; when `ABITypeFor` returns a
nil error, `ABITypeKnown` returns the same `ABIType` value; when it returns
a non-nil error, `ABITypeKnown` returns the zero-value `ABIType` with the
error discarded (using the wrapped library's guarantee, stated as the
hypothesis `hzero`, that `abi.NewType` returns the zero `Type` alongside
every error). -/
theorem abiTypeFor_abiTypeKnown_agree (e : ethAPIShim) (lib : GethLib)
    (typeName : String)
    (hzero : ∀ n i c, (lib.abi_NewType n i c).snd ≠ none →
      (lib.abi_NewType n i c).fst = default) :
    ethAPIShim.ABITypeFor e lib typeName = lib.abi_NewType typeName "" [] ∧
    ethAPIShim.ABITypeKnown e lib typeName =
      (ethAPIShim.ABITypeFor e lib typeName).fst ∧
    ((ethAPIShim.ABITypeFor e lib typeName).snd = none →
      ethAPIShim.ABITypeKnown e lib typeName =
        (ethAPIShim.ABITypeFor e lib typeName).fst) ∧
    ((ethAPIShim.ABITypeFor e lib typeName).snd ≠ none →
      ethAPIShim.ABITypeKnown e lib typeName = default) := by
  refine ⟨rfl, rfl, fun _ => rfl, fun h => ?_⟩
  exact hzero typeName "" [] h

/-- A concrete library whose `abi.NewType` knows only `uint256` and returns
the zero `Type` together with an error on everything else. -/
def lib9 : GethLib :=
  { constLib with
    abi_NewType := fun n _ _ =>
      if n = "uint256" then (uint256Ty, none)
      else (default, some "unsupported arg type") }

/-- `lib9`'s `abi.NewType` returns the zero `Type` alongside every error. -/
theorem lib9_hzero : ∀ n i c, (lib9.abi_NewType n i c).snd ≠ none →
    (lib9.abi_NewType n i c).fst = default := by
  intro n i c h
  by_cases hn : n = "uint256"
  · exact absurd (by simp [lib9, hn]) h
  · simp [lib9, hn]

/-- C9 witness: on the unknown type name `bad`, `ABITypeKnown` over `lib9`
returns the zero value; on `uint256` it returns `ABITypeFor`'s value. -/
theorem abiTypeFor_abiTypeKnown_agree_witness :
    ethAPIShim.ABITypeKnown ⟨⟩ lib9 "bad" = default ∧
    ethAPIShim.ABITypeKnown ⟨⟩ lib9 "uint256" =
      (ethAPIShim.ABITypeFor ⟨⟩ lib9 "uint256").fst :=
  ⟨(abiTypeFor_abiTypeKnown_agree ⟨⟩ lib9 "bad" lib9_hzero).2.2.2
      (by simp [ethAPIShim.ABITypeFor, lib9]),
   (abiTypeFor_abiTypeKnown_agree ⟨⟩ lib9 "uint256" lib9_hzero).2.2.1
      (by simp [ethAPIShim.ABITypeFor, lib9])⟩

end Ethbinding

namespace Ethbinding

/-! ### C1, C2: the pass-through claims. -/

/-- A concrete library whose `abi.NewType` always fails. -/
def lib1 : GethLib :=
  { constLib with
    abi_NewType := fun _ _ _ => (default, some "unsupported arg type") }

/-- Following the spec's words for the refinement claim C1: the observable
result of `ABITypeKnown` — the returned output together with the returned
error.  The method's Go signature has no error result, so its returned
error is always Go `nil` (`none`). -/
def ABITypeKnownObservable (e : ethAPIShim) (lib : GethLib)
    (typeName : String) : ABIType × Option GoError :=
  (e.ABITypeKnown lib typeName, none)

/-- C1 counterexample: for the operation `ABITypeKnown` on the input `bad`,
the wrapped library call `abi.NewType("bad", "", [])` returns a non-nil
error, but the wrapper returns no error: the wrapper's returned output and
error are not equal to the wrapped function's output and error. -/
theorem pass_through_fidelity_counterexample :
    (lib1.abi_NewType "bad" "" []).snd = some "unsupported arg type" ∧
    (ABITypeKnownObservable ⟨⟩ lib1 "bad").snd ≠
      (lib1.abi_NewType "bad" "" []).snd := by
  exact ⟨rfl, by simp [ABITypeKnownObservable, lib1]⟩

/-- C1 (amended): for every operation other than `ABITypeKnown`,
`ABIEventSignature`, `ABIMarshalingToABIRuntime`,
`ABIArgumentsMarshalingToABIArguments`, `ABIElementMarshalingToABIEvent`
and `ABIElementMarshalingToABIMethod`, the wrapper's returned output and
error equal the output and error of the single wrapped library function on
the same input (for `ABITypeFor` and `NewType`, of `abi.NewType` with the
fixed empty internal type and/or empty components the shim supplies); the
six excluded operations add local processing at the shim layer. -/
theorem pass_through_fidelity_amended (e : ethAPIShim) (lib : GethLib) :
    (∀ hex, e.HexDecode lib hex = lib.hexutil_Decode hex) ∧
    (∀ hex, e.HexToAddress lib hex = lib.common_HexToAddress hex) ∧
    (∀ b, e.BytesToAddress lib b = lib.common_BytesToAddress b) ∧
    (∀ s, e.IsHexAddress lib s = lib.common_IsHexAddress s) ∧
    (∀ hex, e.HexToHash lib hex = lib.common_HexToHash hex) ∧
    (∀ bigint, e.EncodeBig lib bigint = lib.hexutil_EncodeBig bigint) ∧
    (∀ hex, e.FromHex lib hex = lib.common_FromHex hex) ∧
    (∀ t, e.ABITypeFor lib t = lib.abi_NewType t "" []) ∧
    (∀ t it, e.NewType lib t it = lib.abi_NewType t it []) ∧
    (∀ r, e.JSON lib r = lib.abi_JSON r) ∧
    (∀ s, e.SolidityVersion lib s = lib.compiler_SolidityVersion s) ∧
    (∀ cj s lv cv co, e.ParseCombinedJSON lib cj s lv cv co =
      lib.compiler_ParseCombinedJSON cj s lv cv co) ∧
    (∀ url, e.Dial lib url = lib.rpc_Dial url) ∧
    (∀ n rn ft mu c p i o, e.NewMethod lib n rn ft mu c p i o =
      lib.abi_NewMethod n rn ft mu c p i o) ∧
    (∀ n t a g gp d, e.NewTransaction lib n t a g gp d =
      lib.types_NewTransaction n t a g gp d) ∧
    (∀ n a g gp d, e.NewContractCreation lib n a g gp d =
      lib.types_NewContractCreation n a g gp d) ∧
    (∀ c, e.NewEIP155Signer lib c = lib.types_NewEIP155Signer c) ∧
    (∀ s, e.ParseBig256 lib s = lib.math_ParseBig256 s) ∧
    (∀ x, e.S256 lib x = lib.math_S256 x) ∧
    (∀ u, e.GenerateKey lib u = lib.crypto_GenerateKey u) ∧
    (∀ p, e.PubkeyToAddress lib p = lib.crypto_PubkeyToAddress p) ∧
    (∀ p, e.FromECDSA lib p = lib.crypto_FromECDSA p) ∧
    (∀ k, e.HexToECDSA lib k = lib.crypto_HexToECDSA k) ∧
    (∀ r il, e.NewStream lib r il = lib.rlp_NewStream r il) ∧
    (∀ tx s p, e.SignTx lib tx s p = lib.types_SignTx tx s p) := by
  exact ⟨fun _ => rfl, fun _ => rfl, fun _ => rfl, fun _ => rfl,
    fun _ => rfl, fun _ => rfl, fun _ => rfl, fun _ => rfl,
    fun _ _ => rfl, fun _ => rfl, fun _ => rfl, fun _ _ _ _ _ => rfl,
    fun _ => rfl, fun _ _ _ _ _ _ _ _ => rfl, fun _ _ _ _ _ _ => rfl,
    fun _ _ _ _ _ => rfl, fun _ => rfl, fun _ => rfl, fun _ => rfl,
    fun _ => rfl, fun _ => rfl, fun _ => rfl, fun _ => rfl,
    fun _ _ => rfl, fun _ _ _ => rfl⟩

/-- C2 counterexample: the operation `ABIEventSignature` is not a delegation
to any wrapped library function: on the concrete two-input event its result
is the locally formatted string `Transfer(uint256,uint256)` under two
libraries (`constLib`, `altLib`) that disagree on every result — the
operation's output does not come from a library call at all. -/
theorem one_line_delegation_counterexample :
    ethAPIShim.ABIEventSignature ⟨⟩ constLib transferEvent =
      "Transfer(uint256,uint256)" ∧
    ethAPIShim.ABIEventSignature ⟨⟩ altLib transferEvent =
      "Transfer(uint256,uint256)" := by
  exact ⟨rfl, rfl⟩

/-- C2 (amended): twenty-five of the thirty-one operations are direct
delegations to a single wrapped library function (for `ABITypeFor` and
`NewType`, a single `abi.NewType` call with fixed empty arguments added);
the six others — `ABITypeKnown` (error discarded) and the five conversion
and formatting operations — perform local computation; in particular
`ABIEventSignature` does not depend on the wrapped library at all. -/
theorem one_line_delegation_amended (e : ethAPIShim) (lib lib' : GethLib) :
    e.HexDecode lib = lib.hexutil_Decode ∧
    e.HexToAddress lib = lib.common_HexToAddress ∧
    e.BytesToAddress lib = lib.common_BytesToAddress ∧
    e.IsHexAddress lib = lib.common_IsHexAddress ∧
    e.HexToHash lib = lib.common_HexToHash ∧
    e.EncodeBig lib = lib.hexutil_EncodeBig ∧
    e.FromHex lib = lib.common_FromHex ∧
    (∀ t, e.ABITypeFor lib t = lib.abi_NewType t "" []) ∧
    (∀ t it, e.NewType lib t it = lib.abi_NewType t it []) ∧
    e.JSON lib = lib.abi_JSON ∧
    e.SolidityVersion lib = lib.compiler_SolidityVersion ∧
    e.ParseCombinedJSON lib = lib.compiler_ParseCombinedJSON ∧
    e.Dial lib = lib.rpc_Dial ∧
    e.NewMethod lib = lib.abi_NewMethod ∧
    e.NewTransaction lib = lib.types_NewTransaction ∧
    e.NewContractCreation lib = lib.types_NewContractCreation ∧
    e.NewEIP155Signer lib = lib.types_NewEIP155Signer ∧
    e.ParseBig256 lib = lib.math_ParseBig256 ∧
    e.S256 lib = lib.math_S256 ∧
    e.GenerateKey lib = lib.crypto_GenerateKey ∧
    e.PubkeyToAddress lib = lib.crypto_PubkeyToAddress ∧
    e.FromECDSA lib = lib.crypto_FromECDSA ∧
    e.HexToECDSA lib = lib.crypto_HexToECDSA ∧
    e.NewStream lib = lib.rlp_NewStream ∧
    e.SignTx lib = lib.types_SignTx ∧
    (∀ ev, e.ABIEventSignature lib ev = e.ABIEventSignature lib' ev) := by
  exact ⟨rfl, rfl, rfl, rfl, rfl, rfl, rfl, fun _ => rfl, fun _ _ => rfl,
    rfl, rfl, rfl, rfl, rfl, rfl, rfl, rfl, rfl, rfl, rfl, rfl, rfl, rfl,
    rfl, rfl, fun _ => rfl⟩

end Ethbinding

namespace Ethbinding

/-! ### C3, C4: the error-handling claims. -/

/-- A concrete library whose `json.Marshal` and `abi.NewType` both fail. -/
def lib3 : GethLib :=
  { constLib with
    json_Marshal_ABIMarshaling := fun _ => ([], some "marshal boom")
    abi_NewType := fun _ _ _ => (default, some "bad type") }

/-- A serialized argument of an unsupported type, without components. -/
def badArg : ABIArgumentMarshaling := .mk "a" "badtype" "" none false

/-- C3 counterexample: over `lib3`, `ABIMarshalingToABIRuntime` suppresses
the non-nil `json.Marshal` error (its returned error is nil), and
`ABIArgumentsMarshalingToABIArguments` takes an error branch that replaces
the built arguments by nil when `abi.NewType` fails — both at the shim
layer. -/
theorem no_added_error_handling_counterexample :
    (lib3.json_Marshal_ABIMarshaling []).snd = some "marshal boom" ∧
    (ethAPIShim.ABIMarshalingToABIRuntime ⟨⟩ lib3 []).snd = none ∧
    (lib3.abi_NewType "badtype" "" []).snd = some "bad type" ∧
    (ethAPIShim.ABIArgumentsMarshalingToABIArguments ⟨⟩ lib3 [badArg]).fst
      = none := by
  exact ⟨rfl, rfl, rfl, rfl⟩

/-- The argument-conversion loop returns a nil argument list exactly when it
returns a non-nil error. -/
theorem abiArgumentsLoop_none_iff (lib : GethLib) :
    ∀ ms, (abiArgumentsLoop lib ms).fst = none ↔
      (abiArgumentsLoop lib ms).snd ≠ none := by
  intro ms
  induction ms with
  | nil => simp [abiArgumentsLoop]
  | cons mArg rest ih =>
    simp only [abiArgumentsLoop]
    split
    · simp
    · split
      · rename_i heq
        rw [heq] at ih
        simpa using ih
      · simp

/-- C3 (amended): the delegating operations add no validation or error
handling; the conversion operations do branch at the shim layer exactly as
coded: `ABITypeKnown` returns `abi.NewType`'s value with its error
discarded, `ABIMarshalingToABIRuntime`'s returned error is only the
`json.Unmarshal` error (the `json.Marshal` error is suppressed), and
`ABIArgumentsMarshalingToABIArguments` returns a nil list exactly when it
returns a non-nil error. -/
theorem no_added_error_handling_amended (e : ethAPIShim) (lib : GethLib) :
    (∀ t, e.ABITypeKnown lib t = (lib.abi_NewType t "" []).fst) ∧
    (∀ m, (e.ABIMarshalingToABIRuntime lib m).snd =
      (lib.json_Unmarshal_RuntimeABI
        (lib.json_Marshal_ABIMarshaling m).fst default).snd) ∧
    (∀ ms, (e.ABIArgumentsMarshalingToABIArguments lib ms).fst = none ↔
      (e.ABIArgumentsMarshalingToABIArguments lib ms).snd ≠ none) := by
  exact ⟨fun _ => rfl, fun _ => rfl, fun ms => abiArgumentsLoop_none_iff lib ms⟩

/-- A concrete library whose component `json.Unmarshal` always fails. -/
def lib4 : GethLib :=
  { constLib with
    json_Unmarshal_Components := fun _ _ => ([], some "bad components json") }

/-- A serialized tuple argument with a (non-nil, empty) components list. -/
def tupleArg : ABIArgumentMarshaling := .mk "a" "tuple" "" (some []) false

/-- C4 counterexample: over `lib4`, converting a tuple argument makes a
`json.Unmarshal` call that returns a non-nil error, yet
`ABIArgumentsMarshalingToABIArguments` returns a nil error and a non-nil
result: the operation's returned error is not the error of the failing
wrapped call, which is silently discarded. -/
theorem errors_exact_counterexample :
    (lib4.json_Unmarshal_Components [] []).snd = some "bad components json" ∧
    (ethAPIShim.ABIArgumentsMarshalingToABIArguments ⟨⟩ lib4 [tupleArg]).snd
      = none ∧
    (ethAPIShim.ABIArgumentsMarshalingToABIArguments ⟨⟩ lib4 [tupleArg]).fst
      ≠ none := by
  refine ⟨rfl, rfl, ?_⟩
  simp [ethAPIShim.ABIArgumentsMarshalingToABIArguments, abiArgumentsLoop,
    goComponents, lib4, constLib, tupleArg, ABIArgumentMarshaling.Components,
    ABIArgumentMarshaling.Ty, ABIArgumentMarshaling.InternalType,
    ABIArgumentMarshaling.Name, ABIArgumentMarshaling.Indexed]

/-- C4 (amended): for every delegating operation that returns an error, the
returned error is exactly the wrapped call's error; `ABITypeFor` and
`NewType` return `abi.NewType`'s error; `ABIMarshalingToABIRuntime` returns
`json.Unmarshal`'s error (`json.Marshal`'s is discarded);
`ABIElementMarshalingToABIEvent` returns the input-conversion error, and
`ABIElementMarshalingToABIMethod` the first of the input- and
output-conversion errors; `ABITypeKnown` and the component round-trip
inside the argument conversion discard wrapped-call errors. -/
theorem errors_exact_amended (e : ethAPIShim) (lib : GethLib) :
    (∀ hex, (e.HexDecode lib hex).snd = (lib.hexutil_Decode hex).snd) ∧
    (∀ r, (e.JSON lib r).snd = (lib.abi_JSON r).snd) ∧
    (∀ s, (e.SolidityVersion lib s).snd =
      (lib.compiler_SolidityVersion s).snd) ∧
    (∀ cj s lv cv co, (e.ParseCombinedJSON lib cj s lv cv co).snd =
      (lib.compiler_ParseCombinedJSON cj s lv cv co).snd) ∧
    (∀ url, (e.Dial lib url).snd = (lib.rpc_Dial url).snd) ∧
    (∀ u, (e.GenerateKey lib u).snd = (lib.crypto_GenerateKey u).snd) ∧
    (∀ k, (e.HexToECDSA lib k).snd = (lib.crypto_HexToECDSA k).snd) ∧
    (∀ tx s p, (e.SignTx lib tx s p).snd = (lib.types_SignTx tx s p).snd) ∧
    (∀ t, (e.ABITypeFor lib t).snd = (lib.abi_NewType t "" []).snd) ∧
    (∀ t it, (e.NewType lib t it).snd = (lib.abi_NewType t it []).snd) ∧
    (∀ m, (e.ABIMarshalingToABIRuntime lib m).snd =
      (lib.json_Unmarshal_RuntimeABI
        (lib.json_Marshal_ABIMarshaling m).fst default).snd) ∧
    (∀ m, (e.ABIElementMarshalingToABIEvent lib m).snd =
      (e.ABIArgumentsMarshalingToABIArguments lib m.Inputs).snd) ∧
    (∀ m, (e.ABIElementMarshalingToABIMethod lib m).snd =
      (match (e.ABIArgumentsMarshalingToABIArguments lib m.Inputs).snd with
       | some er => some er
       | none =>
         (e.ABIArgumentsMarshalingToABIArguments lib m.Outputs).snd)) := by
  refine ⟨fun _ => rfl, fun _ => rfl, fun _ => rfl, fun _ _ _ _ _ => rfl,
    fun _ => rfl, fun _ => rfl, fun _ => rfl, fun _ _ _ => rfl,
    fun _ => rfl, fun _ _ => rfl, fun _ => rfl, fun m => ?_, fun m => ?_⟩
  · simp only [ethAPIShim.ABIElementMarshalingToABIEvent]
    cases h : e.ABIArgumentsMarshalingToABIArguments lib m.Inputs with
    | mk i0 s0 => cases s0 <;> simp
  · simp only [ethAPIShim.ABIElementMarshalingToABIMethod]
    cases h : e.ABIArgumentsMarshalingToABIArguments lib m.Inputs with
    | mk i0 s0 =>
      cases s0 with
      | some er => simp
      | none =>
        cases h2 : e.ABIArgumentsMarshalingToABIArguments lib m.Outputs with
        | mk o0 s1 => cases s1 <;> simp

end Ethbinding

namespace Ethbinding

/-! ### C5, C6: the frame and interface-surface claims. -/

/-- C5: the shim is stateless at its own layer: the `ethAPIShim` struct
carries no fields (it has exactly one value), and every operation is
independent of the receiver — two distinct receiver values give the same
function, so no operation reads or writes any shim state, caches a result,
or introduces synchronization; the operations are pure functions of the
wrapped library and their arguments. -/
theorem shim_stateless :
    (∀ a b : ethAPIShim, a = b) ∧
    (∀ (a b : ethAPIShim) (lib : GethLib),
      a.HexDecode lib = b.HexDecode lib ∧
      a.HexToAddress lib = b.HexToAddress lib ∧
      a.BytesToAddress lib = b.BytesToAddress lib ∧
      a.IsHexAddress lib = b.IsHexAddress lib ∧
      a.HexToHash lib = b.HexToHash lib ∧
      a.EncodeBig lib = b.EncodeBig lib ∧
      a.FromHex lib = b.FromHex lib ∧
      a.ABITypeFor lib = b.ABITypeFor lib ∧
      a.ABITypeKnown lib = b.ABITypeKnown lib ∧
      a.NewType lib = b.NewType lib ∧
      a.ABIEventSignature lib = b.ABIEventSignature lib ∧
      a.ABIMarshalingToABIRuntime lib = b.ABIMarshalingToABIRuntime lib ∧
      a.ABIArgumentsMarshalingToABIArguments lib =
        b.ABIArgumentsMarshalingToABIArguments lib ∧
      a.ABIElementMarshalingToABIEvent lib =
        b.ABIElementMarshalingToABIEvent lib ∧
      a.ABIElementMarshalingToABIMethod lib =
        b.ABIElementMarshalingToABIMethod lib ∧
      a.JSON lib = b.JSON lib ∧
      a.SolidityVersion lib = b.SolidityVersion lib ∧
      a.ParseCombinedJSON lib = b.ParseCombinedJSON lib ∧
      a.Dial lib = b.Dial lib ∧
      a.NewMethod lib = b.NewMethod lib ∧
      a.NewTransaction lib = b.NewTransaction lib ∧
      a.NewContractCreation lib = b.NewContractCreation lib ∧
      a.NewEIP155Signer lib = b.NewEIP155Signer lib ∧
      a.ParseBig256 lib = b.ParseBig256 lib ∧
      a.S256 lib = b.S256 lib ∧
      a.GenerateKey lib = b.GenerateKey lib ∧
      a.PubkeyToAddress lib = b.PubkeyToAddress lib ∧
      a.FromECDSA lib = b.FromECDSA lib ∧
      a.HexToECDSA lib = b.HexToECDSA lib ∧
      a.NewStream lib = b.NewStream lib ∧
      a.SignTx lib = b.SignTx lib) :=
  ⟨fun _ _ => rfl,
   fun _ _ _ => ⟨rfl, rfl, rfl, rfl, rfl, rfl, rfl, rfl, rfl, rfl, rfl, rfl,
     rfl, rfl, rfl, rfl, rfl, rfl, rfl, rfl, rfl, rfl, rfl, rfl, rfl, rfl,
     rfl, rfl, rfl, rfl, rfl⟩⟩

/-- C6 counterexample: the `EthAPI` interface declares exactly 31
operations — roughly thirty, not roughly forty (not even 35). -/
theorem interface_size_counterexample :
    EthAPIOps.length = 31 ∧ ¬ 35 ≤ EthAPIOps.length := by
  exact ⟨rfl, by decide⟩

/-- C6 (amended): the public `EthAPI` interface exposes 31 distinct
operations, covering hex/address conversion, ABI type construction,
event/method signature derivation, Solidity compiler invocation, RPC
dialing, transaction construction and signing, key generation, and RLP
stream decoding. -/
theorem interface_size_amended :
    EthAPIOps.length = 31 ∧ EthAPIOps.Nodup ∧
    "HexDecode" ∈ EthAPIOps ∧ "HexToAddress" ∈ EthAPIOps ∧
    "ABITypeFor" ∈ EthAPIOps ∧ "ABIEventSignature" ∈ EthAPIOps ∧
    "NewMethod" ∈ EthAPIOps ∧ "SolidityVersion" ∈ EthAPIOps ∧
    "ParseCombinedJSON" ∈ EthAPIOps ∧ "Dial" ∈ EthAPIOps ∧
    "NewTransaction" ∈ EthAPIOps ∧ "SignTx" ∈ EthAPIOps ∧
    "GenerateKey" ∈ EthAPIOps ∧ "NewStream" ∈ EthAPIOps := by
  decide

end Ethbinding
